import Mathlib

/-!
Verification of the conversation-orchestration layer of the bilingual
trip-planning assistant.

The definitions below are a shallow embedding of the repository's client
code: the `ChatContainer` component (`handleSendMessage`,
`handleResetConversation`, `toggleLanguage`, the welcome-message effect),
the `ChatInput` component (`handleSubmit`), and the `ErrorHandler` module
(`getErrorDetails`, `validateError`).  The backend (session store and
intent router) ships only as a build plan and LLM prompts, so those two
pieces are modelled from the specification and are marked as such in
their doc comments.
-/

namespace TripPlanner

/-- The two supported languages, `'en' | 'ar'`. -/
inductive Language where
  | en
  | ar
deriving DecidableEq, Repr

/-- `message.role` in the client's `Message` type: `'user' | 'assistant'`. -/
inductive Role where
  | user
  | assistant
deriving DecidableEq, Repr

/-- The client's `Message` record (types file): role, content, optional
intent tag and optional error flag.  The `id`/`timestamp` fields are
opaque identifiers irrelevant to the claims and are omitted. -/
structure Msg where
  role : Role
  content : String
  isError : Bool := false
  intent : Option String := none
deriving DecidableEq, Repr

/-- The state of `ChatContainer` that the handlers read and write:
`messages`, `isLoading`, `sessionId`, `language`, `error`,
`isBackendAvailable`. -/
structure ClientState where
  messages : List Msg
  isLoading : Bool := false
  sessionId : String := ""
  language : Language := .en
  error : Option String := none
  isBackendAvailable : Bool := true
deriving DecidableEq, Repr

/-- The backend's `ChatResponse` as declared in the client's types file:
`session_id`, `response`, `language`, `intent`. -/
structure ChatResponse where
  session_id : String
  response : String
  language : Language
  intent : Option String := none
deriving DecidableEq, Repr

/-- A failed API call as observed by the `catch` block of
`handleSendMessage`: whether `error.response` is present, and the value
of `error.response?.data?.error` (none when absent or undefined). -/
structure ApiError where
  hasResponse : Bool
  dataError : Option String := none
deriving DecidableEq, Repr

/-- JavaScript `a || b` for an optional string `a`: the default is used
when `a` is `undefined` or the empty string (both falsy). -/
def jsOrElse (a : Option String) (b : String) : String :=
  match a with
  | none => b
  | some s => if s = "" then b else s

/-- English/Arabic pick used by the localized literals in the client. -/
def byLanguage (lang : Language) (en ar : String) : String :=
  match lang with
  | .en => en
  | .ar => ar

/-- The welcome message literal of the `messages.length === 0` effect. -/
def welcomeText (lang : Language) : String :=
  byLanguage lang
    "Welcome to Saudi Trip Planner! How can I help you today? I can assist with flight bookings, hotel reservations, or complete trip planning."
    "مرحبًا بك في مخطط رحلات السعودية! كيف يمكنني مساعدتك اليوم؟ يمكنني المساعدة في حجز الرحلات الجوية أو حجوزات الفنادق أو تخطيط الرحلات الكاملة."

/-- The fixed error-turn literal appended by the `catch` block of
`handleSendMessage`. -/
def failureTurnText (lang : Language) : String :=
  byLanguage lang
    "Sorry, there was an error processing your request. Please try again."
    "عذرًا، حدث خطأ أثناء معالجة طلبك. يرجى المحاولة مرة أخرى."

/-- The fixed fallback literal of `setError` in the `catch` block. -/
def failureBannerFallback (lang : Language) : String :=
  byLanguage lang
    "Sorry, there was an error processing your request."
    "عذرًا، حدث خطأ أثناء معالجة طلبك."

/-- The fixed backend-unavailable banner literal rendered when
`isBackendAvailable` is false. -/
def connectionLostText (lang : Language) : String :=
  byLanguage lang
    "Server connection lost. Please check your internet connection."
    "فقد الاتصال بالخادم. يرجى التحقق من اتصال الإنترنت الخاص بك."

/-- First step of `handleSendMessage`: build the `user` message and
append it to `messages` (the optimistic append, before any await). -/
def receiveUserTurn (st : ClientState) (content : String) : ClientState :=
  { st with messages := st.messages ++ [{ role := .user, content := content }] }

/-- Second step of `handleSendMessage`: `setIsLoading(true)`. -/
def beginTurn (st : ClientState) : ClientState :=
  { st with isLoading := true }

/-- Start of the `try` block: `setError(null)`. -/
def clearTurnError (st : ClientState) : ClientState :=
  { st with error := none }

/-- Success path of `handleSendMessage` after the API call returns:
save the session id if absent, append the assistant message, update the
language if the response's language differs, mark the backend
available. -/
def applyResponse (st : ClientState) (r : ChatResponse) : ClientState :=
  let st₁ : ClientState := if st.sessionId = "" then { st with sessionId := r.session_id } else st
  let st₂ := { st₁ with
    messages := st₁.messages ++
      [{ role := .assistant, content := r.response, isError := false, intent := r.intent }] }
  let st₃ : ClientState := if r.language ≠ st₂.language then { st₂ with language := r.language } else st₂
  { st₃ with isBackendAvailable := true }

/-- `catch` path of `handleSendMessage`: set the error banner state,
mark the backend unavailable when the failure had no response, and
append the fixed localized error turn flagged `isError`. -/
def applyFailure (st : ClientState) (e : ApiError) : ClientState :=
  let st₁ := { st with error := some (jsOrElse e.dataError (failureBannerFallback st.language)) }
  let st₂ : ClientState := if e.hasResponse then st₁ else { st₁ with isBackendAvailable := false }
  { st₂ with
    messages := st₂.messages ++
      [{ role := .assistant, content := failureTurnText st.language, isError := true }] }

/-- `finally` block: `setIsLoading(false)`. -/
def endTurn (st : ClientState) : ClientState :=
  { st with isLoading := false }

/-- `handleSendMessage` of `ChatContainer`, as a function of the state,
the submitted content and the outcome of the awaited API call. -/
def handleSendMessage (st : ClientState) (content : String)
    (outcome : Except ApiError ChatResponse) : ClientState :=
  let s₃ := clearTurnError (beginTurn (receiveUserTurn st content))
  match outcome with
  | .ok r => endTurn (applyResponse s₃ r)
  | .error e => endTurn (applyFailure s₃ e)

/-- The successive states `handleSendMessage` moves through, in program
order: initial, after the optimistic user append, after
`setIsLoading(true)`, after `setError(null)`, after the
success/failure update, after `setIsLoading(false)`. -/
def sendMessageTrace (st : ClientState) (content : String)
    (outcome : Except ApiError ChatResponse) : List ClientState :=
  let s₁ := receiveUserTurn st content
  let s₂ := beginTurn s₁
  let s₃ := clearTurnError s₂
  match outcome with
  | .ok r => [st, s₁, s₂, s₃, applyResponse s₃ r, endTurn (applyResponse s₃ r)]
  | .error e => [st, s₁, s₂, s₃, applyFailure s₃ e, endTurn (applyFailure s₃ e)]

/-- `handleSelectPrompt` of `ChatContainer`: clicking a sample-prompt
button forwards the prompt text straight to `handleSendMessage`; the
`SamplePrompts` component is rendered unconditionally and neither its
buttons nor this handler check `isLoading` or carry a `disabled`
attribute. -/
def handleSelectPrompt (st : ClientState) (prompt : String)
    (outcome : Except ApiError ChatResponse) : ClientState :=
  handleSendMessage st prompt outcome

/-- `toggleLanguage` of `ChatContainer`: the handler of the language
switcher button, `setLanguage(prev => prev === 'en' ? 'ar' : 'en')`. -/
def toggleLanguage (st : ClientState) : ClientState :=
  { st with language := match st.language with | .en => .ar | .ar => .en }

/-- `handleResetConversation` of `ChatContainer`: when a session id is
present, call the reset API and on success clear the messages and the
session id (on API failure the state is left as is, the error is only
logged); without a session id just clear the messages. -/
def handleResetConversation (st : ClientState) (apiOk : Bool) : ClientState :=
  if st.sessionId ≠ "" then
    if apiOk then { st with messages := [], sessionId := "" } else st
  else
    { st with messages := [] }

/-- The `messages.length === 0` effect of `ChatContainer`: when the
message list is empty, insert the single assistant welcome message in
the current language; otherwise do nothing. -/
def welcomeEffect (st : ClientState) : ClientState :=
  if st.messages = [] then
    { st with messages := [{ role := .assistant, content := welcomeText st.language }] }
  else st

/-- The assistant-side turn `handleSendMessage` pairs with the user
turn: the response content on success, the fixed localized error turn
on failure. -/
def pairedAssistantTurn (st : ClientState) (outcome : Except ApiError ChatResponse) : Msg :=
  match outcome with
  | .ok r => { role := .assistant, content := r.response, isError := false, intent := r.intent }
  | .error _ => { role := .assistant, content := failureTurnText st.language, isError := true }

/-- Whether the API outcome was a failure. -/
def outcomeFailed (outcome : Except ApiError ChatResponse) : Bool :=
  match outcome with
  | .ok _ => false
  | .error _ => true

/-- The strings a user of the client can see, from the JSX of
`ChatContainer`: the contents of the rendered messages, plus the fixed
backend-unavailable banner when `isBackendAvailable` is false.  The
`error` state field is set by the handlers but never rendered. -/
def visibleTexts (st : ClientState) : List String :=
  st.messages.map Msg.content ++
    (if st.isBackendAvailable then [] else [connectionLostText st.language])

/-- The local state of the `ChatInput` component: the controlled input
value and the `isLoading` prop. -/
structure ChatInputState where
  message : String
  isLoading : Bool
deriving DecidableEq, Repr

/-- JavaScript `String.prototype.trim`: strip leading and trailing
whitespace. -/
def jsTrim (s : String) : String :=
  ⟨((s.data.dropWhile Char.isWhitespace).reverse.dropWhile Char.isWhitespace).reverse⟩

/-- Possible outcomes of one submit of the chat input.  The code itself
only ever produces `sent` or `ignored`; `validationError` and
`busyRejected` are the outcomes the specification's words predict for an
empty submit and for a submit while a turn is in flight, and exist so
the code's behavior can be compared against that prediction. -/
inductive SubmitOutcome where
  | sent (content : String)
  | ignored
  | validationError
  | busyRejected
deriving DecidableEq, Repr

/-- `ChatInput.handleSubmit`: `if (message.trim() && !isLoading)` send
the message and clear the input, otherwise the submit does nothing (the
input and the send button are also rendered disabled while loading or
while the trimmed message is empty). -/
def chatInputSubmit (st : ChatInputState) : SubmitOutcome × ChatInputState :=
  if jsTrim st.message ≠ "" ∧ st.isLoading = false then
    (.sent st.message, { st with message := "" })
  else
    (.ignored, st)

/-- The client's `SamplePrompt` record (types file): id, text,
language. -/
structure SamplePrompt where
  id : String
  text : String
  language : Language
deriving DecidableEq, Repr

/-- The `samplePrompts` array literal of `ChatContainer`: three English
and three Arabic prompts. -/
def samplePrompts : List SamplePrompt :=
  [{ id := "1", text := "I want to book a flight to Riyadh", language := .en },
   { id := "2", text := "Find me a hotel in Jeddah", language := .en },
   { id := "3", text := "Plan a trip to AlUla for next weekend", language := .en },
   { id := "4", text := "أريد حجز رحلة إلى الرياض", language := .ar },
   { id := "5", text := "ابحث لي عن فندق في جدة", language := .ar },
   { id := "6", text := "خطط لي رحلة إلى العلا في عطلة نهاية الأسبوع القادم", language := .ar }]

/-- The outcome the specification's words predict for a submit: a
`Validation` failure for an empty or whitespace-only utterance, a `Busy`
rejection while a turn is in flight, otherwise the send.  This is the
spec-side half of the comparison; `chatInputSubmit` is the code side. -/
def specSubmitOutcome (content : String) (inFlight : Bool) : SubmitOutcome :=
  if inFlight then .busyRejected
  else if jsTrim content = "" then .validationError
  else .sent content

/-- A submit of the chat input followed, when a message was actually
sent, by `handleSendMessage` on the container state with the given API
outcome. -/
def submitThenProcess (ci : ChatInputState) (st : ClientState)
    (outcome : Except ApiError ChatResponse) : ClientState :=
  match (chatInputSubmit ci).1 with
  | .sent c => handleSendMessage st c outcome
  | _ => st

/-! ## The backend pieces, modelled from the specification

The repository's backend exists only as the TODO build plan and its LLM
prompts; the Session Store and the deterministic part of the Intent
Router are therefore modelled from the specification (§4.1, §4.2). -/

/-- The closed intent enumeration: `flight`, `hotel`, `trip`,
`continue_conversation`. -/
inductive Intent where
  | flight
  | hotel
  | trip
  | continue_conversation
deriving DecidableEq, Repr, Fintype

/-- Modelled from the spec: which of the facts an intent needs are
present in the running `TripDraft` plus the new utterance — flight needs
destination and approximate dates, hotel needs location and approximate
dates, trip needs destination and approximate duration (§4.2 and the
intent-recognition prompt of the TODO). -/
structure TripFacts where
  hasDestination : Bool
  hasLocation : Bool
  hasApproxDates : Bool
  hasApproxDuration : Bool
deriving DecidableEq, Repr, Fintype

/-- Modelled from the spec: the minimum fact set of each intent (§4.2);
`continue_conversation` is the no-information fallback, not something
facts can select. -/
def minimumFactsPresent (f : TripFacts) : Intent → Bool
  | .flight => f.hasDestination && f.hasApproxDates
  | .hotel => f.hasLocation && f.hasApproxDates
  | .trip => f.hasDestination && f.hasApproxDuration
  | .continue_conversation => false

/-- Modelled from the spec: the tie-break order `trip > flight > hotel`
(§4.2). -/
def intentPriorityOrder : List Intent := [.trip, .flight, .hotel]

/-- The intents whose minimum fact set is present, listed in tie-break
order. -/
def satisfiedIntents (f : TripFacts) : List Intent :=
  intentPriorityOrder.filter (minimumFactsPresent f)

/-- Position of an intent in the tie-break order (lower is preferred). -/
def priorityRank : Intent → Nat
  | .trip => 0
  | .flight => 1
  | .hotel => 2
  | .continue_conversation => 3

/-- Modelled from the spec: `classify(session, newUtterance) -> Intent`
(§4.2) — return the unique intent whose minimum fact set is present;
with more than one, the first in the tie-break order; with none,
`continue_conversation`.  The backend's classification is performed by
an LLM against the intent-recognition prompt and is not in the sources. -/
def classify (f : TripFacts) : Intent :=
  match satisfiedIntents f with
  | [] => .continue_conversation
  | i :: _ => i

/-- The per-turn role/content pair of the backend's conversation
history, modelled from the spec's `Turn` (§3). -/
structure Turn where
  role : Role
  content : String
  isError : Bool := false
  intent : Option Intent := none
deriving DecidableEq, Repr

/-- Modelled from the spec: the `TripDraft` accumulated across turns
(§3) — destination, date range, budget range, preference lists. -/
structure TripDraft where
  destination : Option String := none
  dateStart : Option String := none
  dateEnd : Option String := none
  budgetMin : Nat := 0
  budgetMax : Nat := 0
  preferences : List String := []
deriving DecidableEq, Repr

/-- The empty draft a fresh or freshly-reset session carries. -/
def emptyDraft : TripDraft := {}

/-- Modelled from the spec: a backend `Session` (§3) — id, append-only
history, active language, draft, turn counter. -/
structure Session where
  id : String
  history : List Turn := []
  language : Language := .en
  draft : TripDraft := emptyDraft
  counter : Nat := 0
deriving DecidableEq, Repr

/-- Failure conditions of the store's operations (§4.1, §7). -/
inductive StoreError where
  | notFound
  | busy
deriving DecidableEq, Repr

/-- Modelled from the spec: the Session Store's keyed mapping from
session identifier to session state (§4.1). -/
def SessionStore : Type := String → Option Session

/-- Modelled from the spec: `reset(sessionId)` clears history and draft,
preserves language and ID, and fails with `NotFound` if the session is
absent (§4.1). -/
def storeReset (store : SessionStore) (sid : String) :
    Except StoreError (SessionStore × Session) :=
  match store sid with
  | none => .error .notFound
  | some s =>
      let s₂ : Session := { s with history := [], draft := emptyDraft }
      .ok (fun k => if k = sid then some s₂ else store k, s₂)

/-! ## The `ErrorHandler` module (`error-handler.js`) -/

/-- The property names of the `ERROR_TYPES` object literal. -/
def errorTypeKeys : List String :=
  ["NETWORK", "VALIDATION", "SERVER", "AUTH", "SYSTEM", "UNKNOWN"]

/-- The property names of the `ERROR_CATEGORIES` object literal. -/
def errorCategoryKeys : List String :=
  ["TRIP_PLANNER", "CHAT", "AUTHENTICATION", "API", "UI"]

/-- The property names of the `ERROR_LEVELS` object literal. -/
def errorLevelKeys : List String :=
  ["INFO", "WARNING", "ERROR", "CRITICAL"]

/-- The values of the `ERROR_TYPES` object literal: the closed kind
enumeration the rest of the module uses. -/
def errorTypeValues : List String :=
  ["network", "validation", "server", "auth", "system", "unknown"]

/-- The values of the `ERROR_CATEGORIES` object literal. -/
def errorCategoryValues : List String :=
  ["trip_planner", "chat", "authentication", "api", "ui"]

/-- The values of the `ERROR_LEVELS` object literal. -/
def errorLevelValues : List String :=
  ["info", "warning", "error", "critical"]

/-- A raw error record as the `ErrorHandler` methods receive it; every
field may be absent (`undefined`). -/
structure JsError where
  message : Option String := none
  type : Option String := none
  category : Option String := none
  level : Option String := none
  timestamp : Option String := none
  stack : Option String := none
  validationMessage : Option String := none
deriving DecidableEq, Repr

/-- The record `getErrorDetails` returns. -/
structure ErrorDetails where
  message : String
  type : String
  level : String
  timestamp : Option String
  stack : Option String
  userMessage : String
deriving DecidableEq, Repr

/-- `ErrorHandler.getErrorDetails`: defaults for the basic fields, then
a user-friendly message chosen by `switch (error.type)` over the kind
values, with a default branch for any other (or missing) kind; for
`validation` the record's own `validationMessage` overrides the
template when present. -/
def getErrorDetails (e : JsError) : ErrorDetails :=
  { message := jsOrElse e.message "An error occurred"
    type := jsOrElse e.type "unknown"
    level := jsOrElse e.level "error"
    timestamp := e.timestamp
    stack := e.stack
    userMessage :=
      match e.type with
      | some "network" => "Network connection error. Please check your internet connection."
      | some "validation" => jsOrElse e.validationMessage "Invalid input. Please check your inputs."
      | some "server" => "Server error occurred. Please try again later."
      | some "auth" => "Authentication error. Please log in again."
      | some "system" => "System error occurred. Please refresh the page."
      | _ => "An unexpected error occurred. Please try again." }

/-- JavaScript truthiness of the property access `obj[key]` on one of
the three enumeration object literals: the access yields a (truthy,
non-empty) string exactly when `key` is one of the object's own
property names, and `undefined` (falsy) otherwise. -/
def enumLookupTruthy (keys : List String) (key : Option String) : Bool :=
  match key with
  | none => false
  | some s => keys.contains s

/-- Rendering of a possibly-undefined value in a template literal. -/
def jsTemplateString (o : Option String) : String :=
  match o with
  | none => "undefined"
  | some s => s

/-- `ErrorHandler.validateError`: throws when the message is missing or
empty, or when `ERROR_TYPES[error.type]`, `ERROR_CATEGORIES[error.category]`
or `ERROR_LEVELS[error.level]` is falsy — note these index the
enumeration objects by property NAME (`NETWORK`, `CHAT`, ...), not by
the enumeration values the rest of the module uses. -/
def validateError (e : JsError) : Except String Unit :=
  if jsOrElse e.message "" = "" then
    .error "Error message is required"
  else if !enumLookupTruthy errorTypeKeys e.type then
    .error ("Invalid error type: " ++ jsTemplateString e.type)
  else if !enumLookupTruthy errorCategoryKeys e.category then
    .error ("Invalid error category: " ++ jsTemplateString e.category)
  else if !enumLookupTruthy errorLevelKeys e.level then
    .error ("Invalid error level: " ++ jsTemplateString e.level)
  else
    .ok ()

/-- A well-formed `TypedError` in the specification's sense (§3, §4.5):
non-empty message, kind, category and severity drawn from the closed
value enumerations. -/
def specWellFormedTypedError (e : JsError) : Prop :=
  jsOrElse e.message "" ≠ "" ∧
  (∃ t, e.type = some t ∧ t ∈ errorTypeValues) ∧
  (∃ c, e.category = some c ∧ c ∈ errorCategoryValues) ∧
  (∃ l, e.level = some l ∧ l ∈ errorLevelValues)

/-! ## Theorems -/

/-- Helper: the message list after `handleSendMessage` is the previous
list followed by the user turn and its paired assistant turn. -/
theorem handleSendMessage_messages_eq (st : ClientState) (content : String)
    (outcome : Except ApiError ChatResponse) :
    (handleSendMessage st content outcome).messages =
      st.messages ++ [{ role := .user, content := content }, pairedAssistantTurn st outcome] := by
  cases outcome with
  | ok r =>
      simp only [handleSendMessage, pairedAssistantTurn, endTurn, applyResponse,
        clearTurnError, beginTurn, receiveUserTurn]
      split <;> split <;> simp
  | error e =>
      simp only [handleSendMessage, pairedAssistantTurn, endTurn, applyFailure,
        clearTurnError, beginTurn, receiveUserTurn]
      split <;> simp

/-- Claim C1: for every user utterance submitted, the `user` turn is
appended to the history immediately on receipt (it is already present in
the trace state right after receipt, before the API call), and after
processing exactly one paired turn follows it: the assistant's response
on success, an error-flagged assistant turn on failure — no user turn is
dropped or left unpaired. -/
theorem user_turn_appended_and_paired (st : ClientState) (content : String)
    (outcome : Except ApiError ChatResponse) :
    (sendMessageTrace st content outcome)[1]? =
      some { st with messages := st.messages ++ [{ role := .user, content := content }] }
    ∧ (handleSendMessage st content outcome).messages =
        st.messages ++ [{ role := .user, content := content }, pairedAssistantTurn st outcome]
    ∧ (pairedAssistantTurn st outcome).role = .assistant
    ∧ (pairedAssistantTurn st outcome).isError = outcomeFailed outcome := by
  refine ⟨by cases outcome <;> rfl,
    handleSendMessage_messages_eq st content outcome,
    by cases outcome <;> rfl, by cases outcome <;> rfl⟩

/-- Claim C6 (counterexample): the claim says the active language never
changes outside turn processing, but `toggleLanguage` — the handler of
the language-switcher button, invocable at any time — flips it while no
turn is being processed: on an idle state (`isLoading = false`, empty
history) it changes the language from `en` to `ar` without touching any
turn. -/
theorem language_changes_outside_turn :
    (toggleLanguage { messages := [], isLoading := false, language := .en }).language = .ar
    ∧ ({ messages := [], isLoading := false, language := .en } : ClientState).isLoading = false
    ∧ (toggleLanguage { messages := [], isLoading := false, language := .en }).messages = [] :=
  ⟨rfl, rfl, rfl⟩

/-- Claim C6 (amended): within the processing of a turn
(`handleSendMessage`), the active language is unchanged in every state
up to and including the start of the API call, and changes only in the
final update step, to the response's detected language on success
(hence only when it differs from the current one) and not at all on
failure. -/
theorem language_stable_mid_turn (st : ClientState) (content : String)
    (outcome : Except ApiError ChatResponse) :
    (receiveUserTurn st content).language = st.language
    ∧ (beginTurn (receiveUserTurn st content)).language = st.language
    ∧ (clearTurnError (beginTurn (receiveUserTurn st content))).language = st.language
    ∧ (handleSendMessage st content outcome).language =
        (match outcome with
         | .ok r => r.language
         | .error _ => st.language) := by
  refine ⟨rfl, rfl, rfl, ?_⟩
  cases outcome with
  | ok r =>
      simp only [handleSendMessage, endTurn, applyResponse,
        clearTurnError, beginTurn, receiveUserTurn]
      split <;> split <;> simp_all
  | error e =>
      simp only [handleSendMessage, endTurn, applyFailure,
        clearTurnError, beginTurn, receiveUserTurn]
      split <;> simp

/-- Claim C9: when a turn fails, everything the user can see is the
previous messages, their own utterance, the fixed localized error-turn
template and (possibly) the fixed localized connection banner — the raw
failure detail reaches only the never-rendered `error` state field (and
the console log), never the visible output. -/
theorem failure_shows_only_fixed_templates (st : ClientState) (content : String)
    (e : ApiError) :
    visibleTexts (handleSendMessage st content (.error e)) =
      st.messages.map Msg.content ++ [content, failureTurnText st.language] ++
        (if e.hasResponse && st.isBackendAvailable then []
         else [connectionLostText st.language])
    ∧ (handleSendMessage st content (.error e)).error =
        some (jsOrElse e.dataError (failureBannerFallback st.language)) := by
  constructor
  · simp only [handleSendMessage, visibleTexts, endTurn, applyFailure,
      clearTurnError, beginTurn, receiveUserTurn]
    split <;> simp_all
  · simp only [handleSendMessage, endTurn, applyFailure,
      clearTurnError, beginTurn, receiveUserTurn]
    split <;> simp

/-- Claim C10: whenever the message list is empty — at startup or right
after a reset — the welcome effect inserts exactly one assistant welcome
message in the currently active language, so the visible history after a
reset is exactly one assistant welcome turn. -/
theorem welcome_fills_empty_history (st : ClientState) :
    (welcomeEffect (handleResetConversation st true)).messages =
      [{ role := .assistant, content := welcomeText st.language }]
    ∧ (welcomeEffect (handleResetConversation st true)).language = st.language
    ∧ (st.messages = [] →
        welcomeEffect st =
          { st with messages := [{ role := .assistant, content := welcomeText st.language }] }) := by
  refine ⟨?_, ?_, ?_⟩
  · by_cases h : st.sessionId = "" <;> simp [handleResetConversation, welcomeEffect, h]
  · by_cases h : st.sessionId = "" <;> simp [handleResetConversation, welcomeEffect, h]
  · intro h
    simp [welcomeEffect, h]

/-- Witness for C10 at a concrete state: an empty history in Arabic
receives exactly the Arabic welcome turn. -/
theorem welcome_fills_empty_history_witness :
    (welcomeEffect { messages := [], language := .ar }).messages =
      [{ role := .assistant, content := welcomeText Language.ar }] := by
  have h := (welcome_fills_empty_history { messages := [], language := .ar }).2.2 rfl
  rw [h]

/-- Claim C4 (counterexample): submitting a whitespace-only utterance on
an idle input is silently ignored by `ChatInput.handleSubmit` — the
submit produces no send and no error and leaves the state untouched —
whereas the claim predicts a `Validation` failure; the two outcomes
differ. -/
theorem empty_submit_no_validation_error :
    chatInputSubmit { message := "   ", isLoading := false } =
      (.ignored, { message := "   ", isLoading := false })
    ∧ specSubmitOutcome "   " false = .validationError
    ∧ SubmitOutcome.ignored ≠ SubmitOutcome.validationError := by
  refine ⟨by decide, by decide, by decide⟩

/-- Claim C4 (amended): an empty or whitespace-only utterance is never
submitted at all — `ChatInput.handleSubmit` ignores it, so no request is
sent, no user or assistant turn is appended, and the session state is
untouched; but the rejection is silent, no `Validation` error is
raised.  The only other send path, the sample-prompt buttons, can never
submit an empty utterance: every entry of `samplePrompts` is
non-blank. -/
theorem empty_submit_leaves_session_untouched (ci : ChatInputState)
    (st : ClientState) (outcome : Except ApiError ChatResponse)
    (h : jsTrim ci.message = "") :
    (chatInputSubmit ci = (.ignored, ci)
      ∧ submitThenProcess ci st outcome = st)
    ∧ ∀ p ∈ samplePrompts, jsTrim p.text ≠ "" := by
  have hsub : chatInputSubmit ci = (.ignored, ci) := by
    simp [chatInputSubmit, h]
  exact ⟨⟨hsub, by simp [submitThenProcess, hsub]⟩, by decide⟩

/-- Witness for the amended C4 at a concrete input: a whitespace-only
submit against a one-message history changes nothing. -/
theorem empty_submit_leaves_session_untouched_witness :
    (jsTrim "  " = "")
    ∧ submitThenProcess { message := "  ", isLoading := false }
        { messages := [{ role := .assistant, content := "hello" }] }
        (.error { hasResponse := false }) =
        { messages := [{ role := .assistant, content := "hello" }] } := by
  have h : jsTrim "  " = "" := by decide
  exact ⟨h, (empty_submit_leaves_session_untouched
    { message := "  ", isLoading := false }
    { messages := [{ role := .assistant, content := "hello" }] }
    (.error { hasResponse := false }) h).1.2⟩

/-- Claim C5 (counterexample): a second send attempted while a turn is
in flight (`isLoading = true`) is silently ignored by
`ChatInput.handleSubmit` — no send, no signal, state untouched — whereas
the claim predicts a rejection with a `Busy` condition; the two outcomes
differ. -/
theorem inflight_submit_no_busy_condition :
    chatInputSubmit { message := "hi", isLoading := true } =
      (.ignored, { message := "hi", isLoading := true })
    ∧ specSubmitOutcome "hi" true = .busyRejected
    ∧ SubmitOutcome.ignored ≠ SubmitOutcome.busyRejected := by
  refine ⟨?_, by simp [specSubmitOutcome], by decide⟩
  simp [chatInputSubmit]

/-- Claim C5 (amended): the in-flight gate exists only on the chat
input — while a turn is in flight (`isLoading = true`) the input is
disabled and its submit handler ignores the attempt, so no second send
is issued through that path, silently, with no `Busy` condition; the
sample-prompt path, however, has no in-flight guard at all: the
`SamplePrompts` buttons are rendered enabled and `handleSelectPrompt`
forwards the click straight to `handleSendMessage`, so selecting a
sample prompt while a turn is in flight issues a second concurrent send
for the same session, appending a second user turn while the first turn
is still in flight — nothing enforces at-most-one turn cycle in flight,
and no `Busy` rejection exists anywhere. -/
theorem inflight_submit_ignored (ci : ChatInputState) (st : ClientState)
    (outcome : Except ApiError ChatResponse) (prompt : String)
    (h : ci.isLoading = true) (_hst : st.isLoading = true) :
    (chatInputSubmit ci = (.ignored, ci)
      ∧ submitThenProcess ci st outcome = st)
    ∧ (handleSelectPrompt st prompt outcome).messages =
        st.messages ++ [{ role := .user, content := prompt },
          pairedAssistantTurn st outcome] := by
  have hsub : chatInputSubmit ci = (.ignored, ci) := by
    simp [chatInputSubmit, h]
  exact ⟨⟨hsub, by simp [submitThenProcess, hsub]⟩,
    handleSendMessage_messages_eq st prompt outcome⟩

/-- Witness for the amended C5 at a concrete in-flight state: the chat
input ignores a submit, while a sample-prompt click goes through and
appends a second user turn. -/
theorem inflight_submit_ignored_witness :
    ({ message := "hi", isLoading := true } : ChatInputState).isLoading = true
    ∧ ({ messages := [], isLoading := true } : ClientState).isLoading = true
    ∧ submitThenProcess { message := "hi", isLoading := true }
        { messages := [], isLoading := true }
        (.ok { session_id := "s", response := "r", language := .en }) =
        { messages := [], isLoading := true }
    ∧ (handleSelectPrompt { messages := [], isLoading := true }
        "Find me a hotel in Jeddah"
        (.ok { session_id := "s", response := "r", language := .en })).messages =
        [{ role := .user, content := "Find me a hotel in Jeddah" },
         { role := .assistant, content := "r", isError := false, intent := none }] := by
  have h := inflight_submit_ignored { message := "hi", isLoading := true }
    { messages := [], isLoading := true }
    (.ok { session_id := "s", response := "r", language := .en })
    "Find me a hotel in Jeddah" rfl rfl
  exact ⟨rfl, rfl, h.1.2, by rw [h.2]; rfl⟩

/-- Claim C3: resetting an existing session twice in succession
succeeds both times and yields the identical empty-history state (the
second call does not fail on the already-empty session); likewise the
client's reset handler is idempotent after the first successful reset.
The store half is modelled from the spec (§4.1), the backend not being
in the sources. -/
theorem reset_twice_idempotent (store : SessionStore) (sid : String)
    (s : Session) (h : store sid = some s) :
    (∃ store₁ s₁,
      storeReset store sid = .ok (store₁, s₁)
      ∧ s₁.history = [] ∧ s₁.draft = emptyDraft
      ∧ s₁.language = s.language ∧ s₁.id = s.id
      ∧ storeReset store₁ sid = .ok (store₁, s₁))
    ∧ (∀ cst : ClientState,
        (handleResetConversation cst true).messages = []
        ∧ handleResetConversation (handleResetConversation cst true) true =
            handleResetConversation cst true) := by
  constructor
  · refine ⟨fun k => if k = sid then some { s with history := [], draft := emptyDraft }
      else store k, { s with history := [], draft := emptyDraft }, ?_, rfl, rfl, rfl, rfl, ?_⟩
    · simp [storeReset, h]
    · have hfun : (fun k => if k = sid then some { s with history := [], draft := emptyDraft }
          else if k = sid then some { s with history := [], draft := emptyDraft } else store k) =
          (fun k => if k = sid then some { s with history := [], draft := emptyDraft }
            else store k) := by
        funext k
        by_cases hk : k = sid <;> simp [hk]
      calc storeReset (fun k => if k = sid then
              some { s with history := [], draft := emptyDraft } else store k) sid
          = Except.ok (fun k => if k = sid then some { s with history := [], draft := emptyDraft }
              else if k = sid then some { s with history := [], draft := emptyDraft } else store k,
              { s with history := [], draft := emptyDraft }) := by
            simp [storeReset]
        _ = Except.ok (fun k => if k = sid then some { s with history := [], draft := emptyDraft }
              else store k, { s with history := [], draft := emptyDraft }) := by
            rw [hfun]
  · intro cst
    by_cases h₁ : cst.sessionId = "" <;>
      simp [handleResetConversation, h₁]

/-- A concrete one-session store used to witness the reset theorem. -/
def sessionEx : Session :=
  { id := "s1", history := [{ role := .user, content := "hi" }],
    language := .ar, draft := { destination := some "Riyadh" }, counter := 1 }

/-- The concrete store holding only `sessionEx`. -/
def storeEx : SessionStore :=
  fun k => if k = "s1" then some sessionEx else none

/-- Witness for C3 at a concrete store: the session `s1` exists, and the
double-reset property holds for it. -/
theorem reset_twice_idempotent_witness :
    storeEx "s1" = some sessionEx
    ∧ ((∃ store₁ s₁,
        storeReset storeEx "s1" = .ok (store₁, s₁)
        ∧ s₁.history = [] ∧ s₁.draft = emptyDraft
        ∧ s₁.language = sessionEx.language ∧ s₁.id = sessionEx.id
        ∧ storeReset store₁ "s1" = .ok (store₁, s₁))
      ∧ (∀ cst : ClientState,
          (handleResetConversation cst true).messages = []
          ∧ handleResetConversation (handleResetConversation cst true) true =
              handleResetConversation cst true)) := by
  have hget : storeEx "s1" = some sessionEx := by
    simp [storeEx]
  exact ⟨hget, reset_twice_idempotent storeEx "s1" sessionEx hget⟩

/-- Claim C2 (spec-modelled intent router): whenever the accumulated
facts satisfy the minimum sets of both `flight` and `trip`, `classify`
returns `trip`; and in general, whenever more than one minimum set is
satisfied, `classify` returns a satisfied intent of highest tie-break
priority in the order `trip > flight > hotel`. -/
theorem classify_tiebreak_trip_first (f : TripFacts) :
    (minimumFactsPresent f .flight = true → minimumFactsPresent f .trip = true →
      classify f = .trip)
    ∧ (1 < (satisfiedIntents f).length →
        minimumFactsPresent f (classify f) = true
        ∧ ∀ i, minimumFactsPresent f i = true →
            priorityRank (classify f) ≤ priorityRank i) := by
  revert f
  decide

/-- Witness for C2 at concrete facts (destination, dates and duration
present, no explicit location): both the `flight` and `trip` minimum
sets hold and `classify` picks `trip`. -/
theorem classify_tiebreak_trip_first_witness :
    minimumFactsPresent ⟨true, false, true, true⟩ .flight = true
    ∧ minimumFactsPresent ⟨true, false, true, true⟩ .trip = true
    ∧ classify ⟨true, false, true, true⟩ = .trip :=
  ⟨by decide, by decide,
    (classify_tiebreak_trip_first ⟨true, false, true, true⟩).1 (by decide) (by decide)⟩

/-- Claim C7: `getErrorDetails` is total and never fails — for every
input record, including one with a missing or unrecognized kind, it
returns a non-empty user-facing message; each of the six kinds maps to
its own fixed template (pairwise distinct), and a missing or unknown
kind falls back to the `unknown` template. -/
theorem getErrorDetails_total_and_distinct :
    (∀ e : JsError, (getErrorDetails e).userMessage ≠ "")
    ∧ ([(getErrorDetails { type := some "network" }).userMessage,
        (getErrorDetails { type := some "validation" }).userMessage,
        (getErrorDetails { type := some "server" }).userMessage,
        (getErrorDetails { type := some "auth" }).userMessage,
        (getErrorDetails { type := some "system" }).userMessage,
        (getErrorDetails { type := some "unknown" }).userMessage] : List String).Nodup
    ∧ (getErrorDetails { type := none }).userMessage =
        "An unexpected error occurred. Please try again."
    ∧ (getErrorDetails { type := some "weird" }).userMessage =
        "An unexpected error occurred. Please try again." := by
  refine ⟨?_, by decide, by decide, by decide⟩
  intro e
  simp only [getErrorDetails]
  split <;> try decide
  case _ =>
    simp only [jsOrElse]
    split
    · decide
    · split <;> simp_all

/-- Witness for C7 at a concrete record with no message, kind, category
or severity at all: the user message is still produced and non-empty. -/
theorem getErrorDetails_total_and_distinct_witness :
    (getErrorDetails {}).userMessage ≠ "" :=
  getErrorDetails_total_and_distinct.1 {}

/-- The well-formed `TypedError` (in the spec's sense) on which the
classifier's validation is evaluated. -/
def wellFormedNetworkError : JsError :=
  { message := some "boom", type := some "network",
    category := some "chat", level := some "error" }

/-- Claim C8 (code bug): `wellFormedNetworkError` carries a non-empty
message and a kind, category and severity drawn from the closed value
enumerations, yet `validateError` rejects it ("Invalid error type:
network"), because it indexes `ERROR_TYPES`, `ERROR_CATEGORIES` and
`ERROR_LEVELS` by property name instead of by value; it instead accepts
a record whose fields hold the property NAMES (`NETWORK`, `CHAT`,
`ERROR`), which are not in the enumerations the rest of the module
uses. -/
theorem validateError_rejects_wellformed :
    specWellFormedTypedError wellFormedNetworkError
    ∧ validateError wellFormedNetworkError = .error "Invalid error type: network"
    ∧ validateError ({ message := some "boom", type := some "NETWORK",
                       category := some "CHAT", level := some "ERROR" }) = .ok () := by
  refine ⟨⟨by decide, ⟨"network", rfl, by decide⟩, ⟨"chat", rfl, by decide⟩,
    ⟨"error", rfl, by decide⟩⟩, by rfl, by rfl⟩

end TripPlanner
